import Mathlib

/-!
Verification development for the bskatar avatar engine: a shallow embedding
of the avatar feature generators, the assembler, the configuration codec and
the persistence gateway from the avatar editor (`part_000`) and the 3D world
front end (`bskyplace/src/main.ts`), together with theorems settling the
frozen claims about them.

Geometry nodes are represented structurally: each THREE.js geometry
constructor call becomes a `GeomBase` value carrying the literal arguments
from the source, in-place geometry mutations (`scale`, `rotateX`, `rotateZ`,
and the square-head vertex inflation loop) become `GeomOp` values, and mesh
placement (`position`, `rotation`, `scale` assignments on the object) is
recorded on the node.  Angles are rational linear combinations `a·π + b`
so that every constant in the source is represented exactly.
-/

namespace Bskatar

/-- A 3-component vector of rational constants (positions, scales). -/
structure Vec3 where
  x : ℚ
  y : ℚ
  z : ℚ
deriving DecidableEq

/-- An angle `piCoeff · π + const`, in radians; every angle constant in the
source is of this form (for example `Math.PI / 2 + 0.3` is `⟨1/2, 0.3⟩`). -/
structure Angle where
  piCoeff : ℚ
  const : ℚ
deriving DecidableEq

/-- Per-axis rotation of a mesh node (`mesh.rotation.x/y/z`). -/
structure Rot3 where
  rx : Angle
  ry : Angle
  rz : Angle
deriving DecidableEq

/-- Zero rotation (THREE default). -/
def r0 : Rot3 := ⟨⟨0, 0⟩, ⟨0, 0⟩, ⟨0, 0⟩⟩

/-- Rotation about x only. -/
def rotX3 (a : Angle) : Rot3 := ⟨a, ⟨0, 0⟩, ⟨0, 0⟩⟩

/-- Rotation about y only. -/
def rotY3 (a : Angle) : Rot3 := ⟨⟨0, 0⟩, a, ⟨0, 0⟩⟩

/-- Rotation about z only. -/
def rotZ3 (a : Angle) : Rot3 := ⟨⟨0, 0⟩, ⟨0, 0⟩, a⟩

/-- Rotation about x and z (the spiky-hair spikes set both). -/
def rotXZ3 (a c : Angle) : Rot3 := ⟨a, ⟨0, 0⟩, c⟩

/-- Zero vector. -/
def v0 : Vec3 := ⟨0, 0, 0⟩

/-- Unit scale (THREE default). -/
def s1 : Vec3 := ⟨1, 1, 1⟩

/-- A THREE.js geometry constructor call with its literal arguments. -/
inductive GeomBase
  | icosahedron (radius : ℚ) (detail : ℕ)
  | box (w h d : ℚ) (ws hs ds : ℕ)
  | sphere (r : ℚ) (wseg hseg : ℕ) (phiStart phiLength thetaStart thetaLength : Angle)
  | cone (r height : ℚ) (radialSeg : ℕ)
  | capsule (r length : ℚ) (capSeg radialSeg : ℕ)
  | torus (r tube : ℚ) (radialSeg tubularSeg : ℕ) (arc : Angle)
  | circle (r : ℚ) (seg : ℕ)
deriving DecidableEq

/-- An in-place geometry mutation performed in the source before the mesh is
built: `geometry.scale`, `geometry.rotateX/Z`, or the per-vertex inflation
loop of the square head (`inflate factor`). -/
inductive GeomOp
  | scaleG (sx sy sz : ℚ)
  | rotateX (a : Angle)
  | rotateZ (a : Angle)
  | inflate (factor : ℚ)
deriving DecidableEq

/-- A geometry: a base constructor plus the in-place mutations applied to it,
in source order. -/
structure Geom where
  base : GeomBase
  ops : List GeomOp
deriving DecidableEq

/-- A material color value as written in the source: a string (hex color or
user-chosen value), a numeric literal, or a color derived by
`new THREE.Color(base).multiplyScalar(factor)`. -/
inductive ColorV
  | hex (s : String)
  | num (n : ℕ)
  | darkened (base : String) (factor : ℚ)
deriving DecidableEq

/-- A MeshLambertMaterial as configured in the source. -/
structure Material where
  color : ColorV
  flat : Bool
  transparent : Bool
  opacity : Option ℚ
deriving DecidableEq

/-- `createMaterial(color)` from the editor (part_000 line 77): Lambert,
flat-shaded, options absent. -/
def createMaterial (c : ColorV) : Material := ⟨c, true, false, none⟩

/-- `createMaterial(color, {transparent, opacity})` from the editor, used by
the blush marks. -/
def createMaterialO (c : ColorV) (t : Bool) (o : ℚ) : Material := ⟨c, true, t, some o⟩

/-- A positioned, rotated, scaled mesh node. -/
structure MeshNode where
  geom : Geom
  mat : Material
  pos : Vec3
  rot : Rot3
  scl : Vec3
deriving DecidableEq

/-- Mesh with default placement. -/
def mkMesh (g : Geom) (m : Material) : MeshNode := ⟨g, m, v0, r0, s1⟩

/-- Mesh with a position set. -/
def mAt (g : Geom) (m : Material) (p : Vec3) : MeshNode := ⟨g, m, p, r0, s1⟩

/-- Mesh with position and rotation set. -/
def mAtR (g : Geom) (m : Material) (p : Vec3) (r : Rot3) : MeshNode := ⟨g, m, p, r, s1⟩

/-- Mesh with position, rotation and scale set. -/
def mFull (g : Geom) (m : Material) (p : Vec3) (r : Rot3) (s : Vec3) : MeshNode := ⟨g, m, p, r, s⟩

/-- The avatar configuration (part_000 lines 14-25).  The TypeScript style
fields are string-literal unions, but those are compile-time only: at runtime
(after an untyped load) any string can occupy them, so the embedding uses
`String` and keeps the legal domains as separate lists. -/
structure AvatarConfig where
  headShape : String
  headColor : String
  hairStyle : String
  hairColor : String
  eyeStyle : String
  eyeColor : String
  eyebrowStyle : String
  noseStyle : String
  mouthStyle : String
  hasBlush : Bool
deriving DecidableEq

/-- The initial configuration (part_000 lines 27-38); its values are exactly
the taxonomy defaults. -/
def defaultConfig : AvatarConfig :=
  ⟨"round", "#ffccaa", "short", "#4a3728", "dots", "#333333", "normal", "small", "smile", true⟩

/-- Legal head shapes (the `headShape` string-literal union). -/
def headShapeDomain : List String := ["round", "oval", "square"]

/-- Legal hair styles. -/
def hairStyleDomain : List String := ["none", "short", "spiky", "bob", "ponytail"]

/-- Legal eye styles. -/
def eyeStyleDomain : List String := ["dots", "wide", "sleepy", "sparkle"]

/-- Legal eyebrow styles. -/
def eyebrowStyleDomain : List String := ["none", "normal", "angry", "worried", "thick"]

/-- Legal nose styles. -/
def noseStyleDomain : List String := ["none", "small", "round", "pointed"]

/-- Legal mouth styles. -/
def mouthStyleDomain : List String := ["smile", "neutral", "open", "cat", "surprised"]

/-- `createHead` (part_000 lines 87-120): a single mesh.  `round` and `oval`
derive from an icosahedron (oval with a fixed non-uniform scale); `square` is
a segmented box with the 0.15 inflation pass; the switch has a `default:` arm
returning the round geometry. -/
def createHead (shape color : String) : MeshNode :=
  let geometry : Geom :=
    match shape with
    | "round" => ⟨.icosahedron 1 1, []⟩
    | "oval" => ⟨.icosahedron 1 1, [.scaleG 0.85 1.1 0.9]⟩
    | "square" => ⟨.box 1.6 1.8 1.5 2 2 2, [.inflate 0.15]⟩
    | _ => ⟨.icosahedron 1 1, []⟩
  mkMesh geometry (createMaterial (.hex color))

/-- `createHair` (part_000 lines 123-235): children of the returned group, in
add order.  `'none'` returns the empty group immediately; the switch has no
default arm, so any unrecognized style also yields the empty group.  The
`bob` branch builds a clip box mesh that is never added to the group, so it
does not appear here. -/
def createHair (style color : String) : List MeshNode :=
  if style = "none" then [] else
  let hairMaterial := createMaterial (.hex color)
  match style with
  | "short" =>
      [mAt ⟨.sphere 1.05 8 6 ⟨0, 0⟩ ⟨2, 0⟩ ⟨0, 0⟩ ⟨0.45, 0⟩, []⟩ hairMaterial ⟨0, 0.15, 0⟩,
       mAtR ⟨.box 0.8 0.15 0.3 2 1 1, []⟩ hairMaterial ⟨0, 0.75, 0.7⟩ (rotX3 ⟨0, 0.3⟩)]
  | "spiky" =>
      let spikeGeom : Geom := ⟨.cone 0.15 0.5 4, []⟩
      ([((0 : ℚ), (1.1 : ℚ), (0 : ℚ), (0 : ℚ), (0 : ℚ)),
        (0.3, 1.0, 0.1, 0.2, -0.3),
        (-0.3, 1.0, 0.1, 0.2, 0.3),
        (0.15, 1.05, -0.2, -0.2, -0.15),
        (-0.15, 1.05, -0.2, -0.2, 0.15),
        (0, 0.95, 0.35, 0.5, 0),
        (0.4, 0.85, 0.2, 0.3, -0.5),
        (-0.4, 0.85, 0.2, 0.3, 0.5)]).map
        (fun p => mAtR spikeGeom hairMaterial ⟨p.1, p.2.1, p.2.2.1⟩
          (rotXZ3 ⟨0, p.2.2.2.1⟩ ⟨0, p.2.2.2.2⟩))
  | "bob" =>
      [mAt ⟨.sphere 1.1 8 6 ⟨0, 0⟩ ⟨2, 0⟩ ⟨0, 0⟩ ⟨1, 0⟩, [.scaleG 1 0.9 0.95]⟩ hairMaterial ⟨0, 0.2, 0⟩,
       mAtR ⟨.capsule 0.25 0.4 4 8, []⟩ hairMaterial ⟨-0.85, -0.1, 0.2⟩ (rotZ3 ⟨0, 0.15⟩),
       mAtR ⟨.capsule 0.25 0.4 4 8, []⟩ hairMaterial ⟨0.85, -0.1, 0.2⟩ (rotZ3 ⟨0, -0.15⟩),
       mAtR ⟨.box 0.9 0.2 0.25 2 1 1, []⟩ hairMaterial ⟨0, 0.7, 0.75⟩ (rotX3 ⟨0, 0.4⟩)]
  | "ponytail" =>
      [mAt ⟨.sphere 1.05 8 6 ⟨0, 0⟩ ⟨2, 0⟩ ⟨0, 0⟩ ⟨0.5, 0⟩, []⟩ hairMaterial ⟨0, 0.1, 0⟩,
       mAtR ⟨.capsule 0.2 0.7 4 8, []⟩ hairMaterial ⟨0, 0.3, -0.9⟩ (rotX3 ⟨0, 0.6⟩),
       mAtR ⟨.torus 0.15 0.05 6 8 ⟨2, 0⟩, []⟩ (createMaterial (.hex "#ff6b6b"))
         ⟨0, 0.6, -0.85⟩ (rotX3 ⟨0.5, 0.3⟩),
       mAtR ⟨.box 0.7 0.15 0.25 2 1 1, []⟩ hairMaterial ⟨0, 0.75, 0.7⟩ (rotX3 ⟨0, 0.3⟩)]
  | _ => []

/-- `createEyebrows` (part_000 lines 238-294).  Color comes from the hair
color; `'none'` and unrecognized styles yield the empty group. -/
def createEyebrows (style color : String) : List MeshNode :=
  if style = "none" then [] else
  let browMaterial := createMaterial (.hex color)
  match style with
  | "normal" =>
      [mAt ⟨.box 0.2 0.04 0.05 1 1 1, []⟩ browMaterial ⟨-0.35, 0.4, 0.82⟩,
       mAt ⟨.box 0.2 0.04 0.05 1 1 1, []⟩ browMaterial ⟨0.35, 0.4, 0.82⟩]
  | "angry" =>
      [mAtR ⟨.box 0.22 0.05 0.05 1 1 1, []⟩ browMaterial ⟨-0.35, 0.4, 0.82⟩ (rotZ3 ⟨0, 0.4⟩),
       mAtR ⟨.box 0.22 0.05 0.05 1 1 1, []⟩ browMaterial ⟨0.35, 0.4, 0.82⟩ (rotZ3 ⟨0, -0.4⟩)]
  | "worried" =>
      [mAtR ⟨.box 0.22 0.05 0.05 1 1 1, []⟩ browMaterial ⟨-0.35, 0.4, 0.82⟩ (rotZ3 ⟨0, -0.35⟩),
       mAtR ⟨.box 0.22 0.05 0.05 1 1 1, []⟩ browMaterial ⟨0.35, 0.4, 0.82⟩ (rotZ3 ⟨0, 0.35⟩)]
  | "thick" =>
      [mAt ⟨.box 0.25 0.08 0.06 1 1 1, []⟩ browMaterial ⟨-0.35, 0.4, 0.82⟩,
       mAt ⟨.box 0.25 0.08 0.06 1 1 1, []⟩ browMaterial ⟨0.35, 0.4, 0.82⟩]
  | _ => []

/-- `createNose` (part_000 lines 297-337).  The nose color is always the head
color darkened by 0.9; `'none'` and unrecognized styles yield the empty
group. -/
def createNose (style headColor : String) : List MeshNode :=
  if style = "none" then [] else
  let noseMaterial := createMaterial (.darkened headColor 0.9)
  match style with
  | "small" =>
      [mAt ⟨.sphere 0.06 6 4 ⟨0, 0⟩ ⟨2, 0⟩ ⟨0, 0⟩ ⟨1, 0⟩, []⟩ noseMaterial ⟨0, -0.05, 0.95⟩]
  | "round" =>
      [mAt ⟨.sphere 0.1 6 4 ⟨0, 0⟩ ⟨2, 0⟩ ⟨0, 0⟩ ⟨1, 0⟩, [.scaleG 1 0.8 0.7]⟩ noseMaterial
        ⟨0, -0.05, 0.95⟩]
  | "pointed" =>
      [mAt ⟨.cone 0.06 0.15 4, [.rotateX ⟨-0.5, 0⟩]⟩ noseMaterial ⟨0, -0.05, 1⟩]
  | _ => []

/-- `createEyes` (part_000 lines 340-420).  Always a symmetric pair; an
unrecognized style falls through the switch and yields the empty group. -/
def createEyes (style color : String) : List MeshNode :=
  let eyeMaterial := createMaterial (.hex color)
  let whiteMaterial := createMaterial (.num 0xffffff)
  match style with
  | "dots" =>
      [mAt ⟨.sphere 0.08 8 6 ⟨0, 0⟩ ⟨2, 0⟩ ⟨0, 0⟩ ⟨1, 0⟩, []⟩ eyeMaterial ⟨-0.35, 0.15, 0.85⟩,
       mAt ⟨.sphere 0.08 8 6 ⟨0, 0⟩ ⟨2, 0⟩ ⟨0, 0⟩ ⟨1, 0⟩, []⟩ eyeMaterial ⟨0.35, 0.15, 0.85⟩]
  | "wide" =>
      [mAt ⟨.sphere 0.15 8 6 ⟨0, 0⟩ ⟨2, 0⟩ ⟨0, 0⟩ ⟨1, 0⟩, []⟩ whiteMaterial ⟨-0.35, 0.15, 0.8⟩,
       mAt ⟨.sphere 0.08 8 6 ⟨0, 0⟩ ⟨2, 0⟩ ⟨0, 0⟩ ⟨1, 0⟩, []⟩ eyeMaterial ⟨-0.35, 0.15, 0.93⟩,
       mAt ⟨.sphere 0.15 8 6 ⟨0, 0⟩ ⟨2, 0⟩ ⟨0, 0⟩ ⟨1, 0⟩, []⟩ whiteMaterial ⟨0.35, 0.15, 0.8⟩,
       mAt ⟨.sphere 0.08 8 6 ⟨0, 0⟩ ⟨2, 0⟩ ⟨0, 0⟩ ⟨1, 0⟩, []⟩ eyeMaterial ⟨0.35, 0.15, 0.93⟩]
  | "sleepy" =>
      [mFull ⟨.capsule 0.04 0.12 4 8, [.rotateZ ⟨0.5, 0⟩]⟩ eyeMaterial ⟨-0.35, 0.15, 0.85⟩
        r0 ⟨1, 0.5, 1⟩,
       mFull ⟨.capsule 0.04 0.12 4 8, [.rotateZ ⟨0.5, 0⟩]⟩ eyeMaterial ⟨0.35, 0.15, 0.85⟩
        r0 ⟨1, 0.5, 1⟩]
  | "sparkle" =>
      let shineMaterial := createMaterial (.num 0xffffff)
      [mAt ⟨.sphere 0.16 8 6 ⟨0, 0⟩ ⟨2, 0⟩ ⟨0, 0⟩ ⟨1, 0⟩, []⟩ whiteMaterial ⟨-0.35, 0.15, 0.8⟩,
       mAt ⟨.sphere 0.1 8 6 ⟨0, 0⟩ ⟨2, 0⟩ ⟨0, 0⟩ ⟨1, 0⟩, []⟩ eyeMaterial ⟨-0.35, 0.15, 0.91⟩,
       mAt ⟨.sphere 0.04 6 4 ⟨0, 0⟩ ⟨2, 0⟩ ⟨0, 0⟩ ⟨1, 0⟩, []⟩ shineMaterial ⟨-0.3, 0.2, 0.97⟩,
       mAt ⟨.sphere 0.16 8 6 ⟨0, 0⟩ ⟨2, 0⟩ ⟨0, 0⟩ ⟨1, 0⟩, []⟩ whiteMaterial ⟨0.35, 0.15, 0.8⟩,
       mAt ⟨.sphere 0.1 8 6 ⟨0, 0⟩ ⟨2, 0⟩ ⟨0, 0⟩ ⟨1, 0⟩, []⟩ eyeMaterial ⟨0.35, 0.15, 0.91⟩,
       mAt ⟨.sphere 0.04 6 4 ⟨0, 0⟩ ⟨2, 0⟩ ⟨0, 0⟩ ⟨1, 0⟩, []⟩ shineMaterial ⟨0.4, 0.2, 0.97⟩]
  | _ => []

/-- `createMouth` (part_000 lines 423-495).  Color is fixed (near-black, with
a fixed accent for the tongue); an unrecognized style yields the empty
group. -/
def createMouth (style : String) : List MeshNode :=
  let mouthMaterial := createMaterial (.num 0x333333)
  let tongueMaterial := createMaterial (.num 0xff6b6b)
  match style with
  | "smile" =>
      [mAt ⟨.torus 0.15 0.025 8 12 ⟨1, 0⟩, [.rotateX ⟨1, 0⟩, .rotateZ ⟨1, 0⟩]⟩ mouthMaterial
        ⟨0, -0.25, 0.9⟩]
  | "neutral" =>
      [mAt ⟨.capsule 0.02 0.2 4 8, [.rotateZ ⟨0.5, 0⟩]⟩ mouthMaterial ⟨0, -0.25, 0.9⟩]
  | "open" =>
      [mAt ⟨.sphere 0.12 8 6 ⟨0, 0⟩ ⟨2, 0⟩ ⟨0, 0⟩ ⟨1, 0⟩, [.scaleG 1.3 0.8 0.5]⟩ mouthMaterial
        ⟨0, -0.25, 0.9⟩,
       mAt ⟨.sphere 0.06 6 4 ⟨0, 0⟩ ⟨2, 0⟩ ⟨0, 0⟩ ⟨1, 0⟩, [.scaleG 1 0.6 0.5]⟩ tongueMaterial
        ⟨0, -0.3, 0.92⟩]
  | "cat" =>
      [mAt ⟨.torus 0.08 0.02 6 8 ⟨1, 0⟩, [.rotateX ⟨1, 0⟩, .rotateZ ⟨0.75, 0⟩]⟩ mouthMaterial
        ⟨-0.06, -0.27, 0.9⟩,
       mAt ⟨.torus 0.08 0.02 6 8 ⟨1, 0⟩, [.rotateX ⟨1, 0⟩, .rotateZ ⟨0.25, 0⟩]⟩ mouthMaterial
        ⟨0.06, -0.27, 0.9⟩]
  | "surprised" =>
      [mAt ⟨.torus 0.1 0.03 8 12 ⟨2, 0⟩, []⟩ mouthMaterial ⟨0, -0.25, 0.9⟩]
  | _ => []

/-- `createBlush` (part_000 lines 498-514): two fixed semi-transparent flat
circles, no inputs. -/
def createBlush : List MeshNode :=
  let blushMaterial := createMaterialO (.num 0xffaaaa) true 0.6
  [mAtR ⟨.circle 0.1 6, []⟩ blushMaterial ⟨-0.55, -0.05, 0.75⟩ (rotY3 ⟨0, -0.4⟩),
   mAtR ⟨.circle 0.1 6, []⟩ blushMaterial ⟨0.55, -0.05, 0.75⟩ (rotY3 ⟨0, 0.4⟩)]

/-- A direct child of the editor's `avatarGroup`: the head mesh, or one of
the sub-assembly groups returned by the other generators (each group node
itself has default transform). -/
inductive AvatarPart
  | meshPart (m : MeshNode)
  | groupPart (children : List MeshNode)
deriving DecidableEq

/-- The clearing loop of `buildAvatar` (part_000 lines 519-521):
`while (children.length > 0) remove(children[0])`. -/
def clearChildren : List AvatarPart → List AvatarPart
  | [] => []
  | _ :: rest => clearChildren rest

/-- `buildAvatar` (part_000 lines 517-546) as a transformer of the
`avatarGroup` child list: clear all existing children, then add the head,
hair, nose, eyes, eyebrows and mouth sub-assemblies in that order, then the
blush group when `hasBlush` is set.  Every generated sub-assembly is added,
empty or not. -/
def buildAvatar (config : AvatarConfig) (prev : List AvatarPart) : List AvatarPart :=
  clearChildren prev ++
    [AvatarPart.meshPart (createHead config.headShape config.headColor),
     AvatarPart.groupPart (createHair config.hairStyle config.hairColor),
     AvatarPart.groupPart (createNose config.noseStyle config.headColor),
     AvatarPart.groupPart (createEyes config.eyeStyle config.eyeColor),
     AvatarPart.groupPart (createEyebrows config.eyebrowStyle config.hairColor),
     AvatarPart.groupPart (createMouth config.mouthStyle)] ++
    (if config.hasBlush then [AvatarPart.groupPart createBlush] else [])

/-- All meshes of an assembled avatar, in attach order (the head mesh, then
the meshes inside each sub-assembly group). -/
def flattenParts (parts : List AvatarPart) : List MeshNode :=
  parts.flatMap fun p =>
    match p with
    | .meshPart m => [m]
    | .groupPart l => l

/-- The avatar group built by the world front end's `buildPlayerAvatar`
(main.ts lines 565-651): a group raised to head height and scaled down,
holding a flat list of meshes.  Shadow-casting flags are rendering-only and
not modelled. -/
structure PlayerAvatarGroup where
  pos : Vec3
  scl : Vec3
  children : List MeshNode
deriving DecidableEq

/-- `createMaterial(color)` from the world front end (main.ts lines 558-563):
same shape as the editor's helper, without the options parameter. -/
def createMaterialW (c : ColorV) : Material := ⟨c, true, false, none⟩

/-- `buildPlayerAvatar` (main.ts lines 565-651), the avatar portion: head
(square without the inflation pass), a body capsule, simplified hair (three
spikes for `'spiky'`, a cap for every other non-`'none'` style), eyes always
as two dots at x = ±0.3, and blush (material without flat shading); nose,
eyebrows and mouth are not generated. -/
def buildPlayerAvatar (config : AvatarConfig) : PlayerAvatarGroup :=
  let headGeom : Geom :=
    match config.headShape with
    | "oval" => ⟨.icosahedron 1 1, [.scaleG 0.85 1.1 0.9]⟩
    | "square" => ⟨.box 1.6 1.8 1.5 2 2 2, []⟩
    | _ => ⟨.icosahedron 1 1, []⟩
  let head := mkMesh headGeom (createMaterialW (.hex config.headColor))
  let body := mAt ⟨.capsule 0.4 0.8 4 8, []⟩ (createMaterialW (.hex config.headColor))
    ⟨0, -1.4, 0⟩
  let hairMeshes : List MeshNode :=
    if config.hairStyle = "none" then [] else
    let hairMat := createMaterialW (.hex config.hairColor)
    if config.hairStyle = "spiky" then
      ([((0 : ℚ), (1.1 : ℚ), (0 : ℚ)), (0.3, 1.0, 0.1), (-0.3, 1.0, 0.1)]).map
        (fun p => mAt ⟨.cone 0.15 0.5 4, []⟩ hairMat ⟨p.1, p.2.1, p.2.2⟩)
    else
      [mAt ⟨.sphere 1.05 8 6 ⟨0, 0⟩ ⟨2, 0⟩ ⟨0, 0⟩ ⟨0.45, 0⟩, []⟩ hairMat ⟨0, 0.15, 0⟩]
  let eyeMat := createMaterialW (.hex config.eyeColor)
  let eyes : List MeshNode :=
    [mAt ⟨.sphere 0.08 8 6 ⟨0, 0⟩ ⟨2, 0⟩ ⟨0, 0⟩ ⟨1, 0⟩, []⟩ eyeMat ⟨-0.3, 0.15, 0.85⟩,
     mAt ⟨.sphere 0.08 8 6 ⟨0, 0⟩ ⟨2, 0⟩ ⟨0, 0⟩ ⟨1, 0⟩, []⟩ eyeMat ⟨0.3, 0.15, 0.85⟩]
  let blush : List MeshNode :=
    if config.hasBlush then
      let blushMat : Material := ⟨.num 0xffaaaa, false, true, some 0.6⟩
      [mAtR ⟨.circle 0.1 6, []⟩ blushMat ⟨-0.5, -0.05, 0.75⟩ (rotY3 ⟨0, -0.4⟩),
       mAtR ⟨.circle 0.1 6, []⟩ blushMat ⟨0.5, -0.05, 0.75⟩ (rotY3 ⟨0, 0.4⟩)]
    else []
  ⟨⟨0, 1.2, 0⟩, ⟨0.6, 0.6, 0.6⟩, [head, body] ++ hairMeshes ++ eyes ++ blush⟩

/-- The persisted avatar record at the store boundary.  The ten configuration
fields are untrusted and may each be absent (`none`); string fields that are
present may hold any string, including the empty string or unrecognized
values.  `extra` stands for foreign fields a newer or foreign schema might
add; the loader never reads it. -/
structure AvatarRecord where
  headShape : Option String
  headColor : Option String
  hairStyle : Option String
  hairColor : Option String
  eyeStyle : Option String
  eyeColor : Option String
  eyebrowStyle : Option String
  noseStyle : Option String
  mouthStyle : Option String
  hasBlush : Option Bool
  typeTag : Option String
  createdAt : Option String
  extra : List (String × String)
deriving DecidableEq

/-- A record with every field absent. -/
def emptyRecord : AvatarRecord :=
  ⟨none, none, none, none, none, none, none, none, none, none, none, none, []⟩

/-- JavaScript `record.field || default` on a string field: an absent field
and a present-but-empty string are both falsy and yield the default; any
other string is returned unchanged. -/
def orDefault (v : Option String) (d : String) : String :=
  match v with
  | none => d
  | some s => if s = "" then d else s

/-- The load-side decoding (part_000 lines 943-954 and main.ts lines
855-866, identical): string fields via `|| default`, the boolean via
`?? true`. -/
def fromRecord (r : AvatarRecord) : AvatarConfig :=
  ⟨orDefault r.headShape "round",
   orDefault r.headColor "#ffccaa",
   orDefault r.hairStyle "short",
   orDefault r.hairColor "#4a3728",
   orDefault r.eyeStyle "dots",
   orDefault r.eyeColor "#333333",
   orDefault r.eyebrowStyle "normal",
   orDefault r.noseStyle "small",
   orDefault r.mouthStyle "smile",
   r.hasBlush.getD true⟩

/-- The save-side payload (part_000 lines 897-901 and 909-913):
`{$type: AVATAR_COLLECTION, ...currentConfig, createdAt: new Date().toISOString()}`.
No other field of the session state is copied in. -/
def toRecord (c : AvatarConfig) (createdAt : String) : AvatarRecord :=
  ⟨some c.headShape, some c.headColor, some c.hairStyle, some c.hairColor,
   some c.eyeStyle, some c.eyeColor, some c.eyebrowStyle, some c.noseStyle,
   some c.mouthStyle, some c.hasBlush, some "xyz.bskatar.avatar", some createdAt, []⟩

/-- Outcome of the attempted `putRecord` call. -/
inductive PutOutcome
  | ok
  | notFound
  | otherFailure (msg : String)
deriving DecidableEq

/-- A write issued against the record store. -/
inductive WriteAction
  | put (collection rkey : String) (record : AvatarRecord)
  | create (collection rkey : String) (record : AvatarRecord)
deriving DecidableEq

/-- The writes performed by `saveAvatarToBluesky` (part_000 lines 881-923)
under an authenticated session: `putRecord` on the single fixed slot is
always attempted first with its own freshly sampled timestamp `tsPut`; the
bare `catch {}` falls back to `createRecord` (timestamp `tsCreate`) on any
failure of the put, whatever its cause. -/
def saveAvatarWrites (config : AvatarConfig) (tsPut tsCreate : String)
    (putResult : PutOutcome) : List WriteAction :=
  let putAction := WriteAction.put "xyz.bskatar.avatar" "self" (toRecord config tsPut)
  match putResult with
  | .ok => [putAction]
  | _ => [putAction,
      WriteAction.create "xyz.bskatar.avatar" "self" (toRecord config tsCreate)]

/-- Outcome of the `getRecord` call made by the loader. -/
inductive GetOutcome
  | ok (record : AvatarRecord)
  | err (message : String) (status : ℕ)
deriving DecidableEq

/-- The result value returned by `loadAvatarFromBluesky`. -/
structure LoadResult where
  success : Bool
  error : Option String
deriving DecidableEq

/-- The session state the loader may touch: the live configuration and the
on-screen avatar child list. -/
structure AppState where
  config : AvatarConfig
  avatar : List AvatarPart
deriving DecidableEq

/-- Whether the pattern (first list) is an initial segment of the text
(second list). -/
def charsMatch : List Char → List Char → Bool
  | [], _ => true
  | _ :: _, [] => false
  | p :: ps, c :: cs => p == c && charsMatch ps cs

/-- Whether the pattern occurs anywhere in the text. -/
def charsFind : List Char → List Char → Bool
  | pat, [] => charsMatch pat []
  | pat, c :: cs => charsMatch pat (c :: cs) || charsFind pat cs

/-- Substring test modelling JavaScript `message.includes(pat)`. -/
def strContains (s pat : String) : Bool := charsFind pat.data s.data

/-- `loadAvatarFromBluesky` (part_000 lines 925-970) under an authenticated
session, as a pure transformer of the session state driven by the `getRecord`
outcome.  On success the decoded configuration replaces the live one and the
avatar is rebuilt; an error whose message contains `'not found'` or whose
status is 400 is answered with the informational `'No avatar saved yet'`
value; any other error is surfaced (with the `'Load failed'` fallback for an
empty message).  Failure branches touch no state. -/
def loadAvatar (outcome : GetOutcome) (s : AppState) : AppState × LoadResult :=
  match outcome with
  | .ok record =>
      let cfg := fromRecord record
      (⟨cfg, buildAvatar cfg s.avatar⟩, ⟨true, none⟩)
  | .err msg status =>
      if strContains msg "not found" || status == 400 then
        (s, ⟨false, some "No avatar saved yet"⟩)
      else
        (s, ⟨false, some (if msg = "" then "Load failed" else msg)⟩)

/-- The load-button handler (part_000 lines 1015-1025) shows an error
notification exactly when the result is unsuccessful and its error is not the
informational `'No avatar saved yet'` value. -/
def loadShowsError (r : LoadResult) : Bool :=
  !r.success && !(r.error == some "No avatar saved yet")

/-!
Numeric model of the square-head inflation pass (part_000 lines 98-114).
`THREE.BoxGeometry(1.6, 1.8, 1.5, 2, 2, 2)` places its vertices on the grid
points of the box surface: each coordinate ranges over `{-half, 0, half}` of
its extent and at least one coordinate sits on a face.  The per-vertex loop
is modelled exactly over `ℝ` (floating point treated as real arithmetic).
-/

/-- Grid vertex positions of `THREE.BoxGeometry(1.6, 1.8, 1.5, 2, 2, 2)`
(modelled from the library's segmented-box construction): with two segments
per axis each coordinate ranges over `{-half, 0, half}` of its extent
(`±0.8`, `±0.9`, `±0.75`), and every generated vertex lies on a face, i.e.
has at least one coordinate at its extreme.  Seam vertices that the library
duplicates across faces are listed once. -/
def boxVertices : List (ℚ × ℚ × ℚ) :=
  [(-0.8, -0.9, -0.75), (-0.8, -0.9, 0), (-0.8, -0.9, 0.75),
   (-0.8, 0, -0.75), (-0.8, 0, 0), (-0.8, 0, 0.75),
   (-0.8, 0.9, -0.75), (-0.8, 0.9, 0), (-0.8, 0.9, 0.75),
   (0, -0.9, -0.75), (0, -0.9, 0), (0, -0.9, 0.75),
   (0, 0, -0.75), (0, 0, 0.75),
   (0, 0.9, -0.75), (0, 0.9, 0), (0, 0.9, 0.75),
   (0.8, -0.9, -0.75), (0.8, -0.9, 0), (0.8, -0.9, 0.75),
   (0.8, 0, -0.75), (0.8, 0, 0), (0.8, 0, 0.75),
   (0.8, 0.9, -0.75), (0.8, 0.9, 0), (0.8, 0.9, 0.75)]

/-- The eight corner vertices of the box. -/
def boxCorners : List (ℚ × ℚ × ℚ) :=
  [(-0.8, -0.9, -0.75), (-0.8, -0.9, 0.75), (-0.8, 0.9, -0.75), (-0.8, 0.9, 0.75),
   (0.8, -0.9, -0.75), (0.8, -0.9, 0.75), (0.8, 0.9, -0.75), (0.8, 0.9, 0.75)]

/-- The twelve edge-midpoint vertices of the box. -/
def boxEdgeMids : List (ℚ × ℚ × ℚ) :=
  [(-0.8, -0.9, 0), (-0.8, 0, -0.75), (-0.8, 0, 0.75), (-0.8, 0.9, 0),
   (0, -0.9, -0.75), (0, -0.9, 0.75), (0, 0.9, -0.75), (0, 0.9, 0.75),
   (0.8, -0.9, 0), (0.8, 0, -0.75), (0.8, 0, 0.75), (0.8, 0.9, 0)]

/-- The six face-center vertices of the box. -/
def boxFaceCenters : List (ℚ × ℚ × ℚ) :=
  [(-0.8, 0, 0), (0.8, 0, 0), (0, -0.9, 0), (0, 0.9, 0), (0, 0, -0.75), (0, 0, 0.75)]

/-- Squared distance from the origin, over the rational vertex grid. -/
def sumSq (v : ℚ × ℚ × ℚ) : ℚ := v.1 * v.1 + v.2.1 * v.2.1 + v.2.2 * v.2.2

/-- Injection of a grid vertex into `ℝ³`. -/
def toR (v : ℚ × ℚ × ℚ) : ℝ × ℝ × ℝ := ((v.1 : ℝ), (v.2.1 : ℝ), (v.2.2 : ℝ))

/-- Distance of a point from the origin (`Math.sqrt(x*x + y*y + z*z)`). -/
noncomputable def norm3 (v : ℝ × ℝ × ℝ) : ℝ :=
  Real.sqrt (v.1 * v.1 + v.2.1 * v.2.1 + v.2.2 * v.2.2)

/-- One iteration of the inflation loop (part_000 lines 102-112): move each
coordinate 15% of the way from `x` toward `x / length`. -/
noncomputable def inflateVertex (v : ℝ × ℝ × ℝ) : ℝ × ℝ × ℝ :=
  let x := v.1
  let y := v.2.1
  let z := v.2.2
  let length := Real.sqrt (x * x + y * y + z * z)
  let factor : ℝ := 0.15
  (x + (x / length - x) * factor,
   y + (y / length - y) * factor,
   z + (z / length - z) * factor)

/-- Displacement magnitude of a vertex under the inflation pass. -/
noncomputable def disp3 (v : ℝ × ℝ × ℝ) : ℝ :=
  norm3 ((inflateVertex v).1 - v.1, (inflateVertex v).2.1 - v.2.1,
    (inflateVertex v).2.2 - v.2.2)

/-- Scaling all three coordinates scales the distance by the absolute factor. -/
lemma norm3_smul (c x y z : ℝ) : norm3 (c * x, c * y, c * z) = |c| * norm3 (x, y, z) := by
  unfold norm3
  rw [show c * x * (c * x) + c * y * (c * y) + c * z * (c * z)
      = c ^ 2 * (x * x + y * y + z * z) by ring,
    Real.sqrt_mul (sq_nonneg c), Real.sqrt_sq_eq_abs]

/-- Away from the origin, the inflation is a uniform scaling by
`0.85 + 0.15 / length`. -/
lemma inflate_eq_scale (x y z : ℝ) (h : Real.sqrt (x * x + y * y + z * z) ≠ 0) :
    inflateVertex (x, y, z) =
      ((0.85 + 0.15 / Real.sqrt (x * x + y * y + z * z)) * x,
       (0.85 + 0.15 / Real.sqrt (x * x + y * y + z * z)) * y,
       (0.85 + 0.15 / Real.sqrt (x * x + y * y + z * z)) * z) := by
  unfold inflateVertex
  refine Prod.ext ?_ (Prod.ext ?_ ?_) <;> simp only <;> field_simp <;> ring

/-- Distance after inflation: `0.85 · length + 0.15`. -/
lemma norm3_inflate (x y z : ℝ) (h : 0 < x * x + y * y + z * z) :
    norm3 (inflateVertex (x, y, z)) = 0.85 * norm3 (x, y, z) + 0.15 := by
  have hL : 0 < Real.sqrt (x * x + y * y + z * z) := Real.sqrt_pos.mpr h
  have hc : (0 : ℝ) ≤ 0.85 + 0.15 / Real.sqrt (x * x + y * y + z * z) := by positivity
  have hn : norm3 (x, y, z) = Real.sqrt (x * x + y * y + z * z) := rfl
  rw [inflate_eq_scale x y z hL.ne', norm3_smul, abs_of_nonneg hc, hn, add_mul,
    div_mul_cancel₀ _ hL.ne']

/-- Displacement magnitude: `0.15 · |1 - length|`. -/
lemma disp3_eq (x y z : ℝ) (h : 0 < x * x + y * y + z * z) :
    disp3 (x, y, z) = 0.15 * |1 - norm3 (x, y, z)| := by
  have hL : 0 < Real.sqrt (x * x + y * y + z * z) := Real.sqrt_pos.mpr h
  unfold disp3
  rw [inflate_eq_scale x y z hL.ne']
  simp only
  rw [show (0.85 + 0.15 / Real.sqrt (x * x + y * y + z * z)) * x - x
      = (0.15 / Real.sqrt (x * x + y * y + z * z) * (1 - Real.sqrt (x * x + y * y + z * z))) * x
      by field_simp; ring]
  rw [show (0.85 + 0.15 / Real.sqrt (x * x + y * y + z * z)) * y - y
      = (0.15 / Real.sqrt (x * x + y * y + z * z) * (1 - Real.sqrt (x * x + y * y + z * z))) * y
      by field_simp; ring]
  rw [show (0.85 + 0.15 / Real.sqrt (x * x + y * y + z * z)) * z - z
      = (0.15 / Real.sqrt (x * x + y * y + z * z) * (1 - Real.sqrt (x * x + y * y + z * z))) * z
      by field_simp; ring]
  rw [norm3_smul]
  show |0.15 / Real.sqrt (x * x + y * y + z * z) * (1 - Real.sqrt (x * x + y * y + z * z))|
      * Real.sqrt (x * x + y * y + z * z) = _
  rw [abs_mul, abs_div, abs_of_pos hL, abs_of_nonneg (by norm_num : (0 : ℝ) ≤ 0.15)]
  have hn : norm3 (x, y, z) = Real.sqrt (x * x + y * y + z * z) := rfl
  rw [hn]
  field_simp

/-- Real distance of a grid vertex in terms of its rational squared
distance. -/
lemma norm3_toR (v : ℚ × ℚ × ℚ) : norm3 (toR v) = Real.sqrt ((sumSq v : ℚ) : ℝ) := by
  unfold norm3 toR sumSq
  congr 1
  push_cast
  ring

/-- The clearing loop leaves no child behind, whatever was there. -/
lemma clearChildren_eq_nil (l : List AvatarPart) : clearChildren l = [] := by
  induction l with
  | nil => rfl
  | cons a t ih => exact ih

/-- C1, counterexample.  The claim says a generator given an unrecognized
style returns the same sub-assembly as the field's taxonomy default.  For
hair the default is `'short'`, but `createHair` has no default switch arm:
an unrecognized style yields the empty group, while `'short'` yields a
two-mesh cap-and-bangs group. -/
theorem c1_counterexample :
    createHair "mystery" "#4a3728" ≠ createHair "short" "#4a3728" := by
  decide

/-- C1, amended.  A generator given a style outside its taxonomy completes
(the embedding is total, as is the source: plain switch fall-through, no
throw) but only `createHead` falls back to the taxonomy default (`'round'`,
via its `default:` arm); `createHair`, `createEyebrows`, `createNose`,
`createEyes` and `createMouth` fall through their switches and return the
empty sub-assembly instead of the default style's sub-assembly. -/
theorem c1_amended_fallback (s col : String) :
    (s ∉ headShapeDomain → createHead s col = createHead "round" col) ∧
    (s ∉ hairStyleDomain → createHair s col = []) ∧
    (s ∉ eyebrowStyleDomain → createEyebrows s col = []) ∧
    (s ∉ noseStyleDomain → createNose s col = []) ∧
    (s ∉ eyeStyleDomain → createEyes s col = []) ∧
    (s ∉ mouthStyleDomain → createMouth s = []) := by
  refine ⟨?_, ?_, ?_, ?_, ?_, ?_⟩ <;> intro h <;>
    simp only [headShapeDomain, hairStyleDomain, eyebrowStyleDomain, noseStyleDomain,
      eyeStyleDomain, mouthStyleDomain, List.mem_cons, List.not_mem_nil, or_false,
      not_or] at h
  · obtain ⟨h1, h2, h3⟩ := h
    unfold createHead
    split <;> simp_all
  · obtain ⟨h0, h1, h2, h3, h4⟩ := h
    unfold createHair
    rw [if_neg h0]
    split <;> simp_all
  · obtain ⟨h0, h1, h2, h3, h4⟩ := h
    unfold createEyebrows
    rw [if_neg h0]
    split <;> simp_all
  · obtain ⟨h0, h1, h2, h3⟩ := h
    unfold createNose
    rw [if_neg h0]
    split <;> simp_all
  · obtain ⟨h1, h2, h3, h4⟩ := h
    unfold createEyes
    split <;> simp_all
  · obtain ⟨h1, h2, h3, h4, h5⟩ := h
    unfold createMouth
    split <;> simp_all

/-- C1, witness: the amended fallback behaviour at the concrete unrecognized
style `"mystery"`. -/
theorem c1_amended_fallback_witness :
    createHead "mystery" "#ffccaa" = createHead "round" "#ffccaa" ∧
    createHair "mystery" "#ffccaa" = [] ∧
    createEyebrows "mystery" "#ffccaa" = [] ∧
    createNose "mystery" "#ffccaa" = [] ∧
    createEyes "mystery" "#ffccaa" = [] ∧
    createMouth "mystery" = [] := by
  obtain ⟨h1, h2, h3, h4, h5, h6⟩ := c1_amended_fallback "mystery" "#ffccaa"
  exact ⟨h1 (by decide), h2 (by decide), h3 (by decide), h4 (by decide), h5 (by decide),
    h6 (by decide)⟩

/-- C2: the round-trip law.  For a configuration whose style fields lie in
their closed domains and whose color fields are non-empty, decoding the
saved payload (`{$type, ...config, createdAt}`) restores the configuration
field by field, and the payload carries nothing beyond the configuration
shape, the schema tag and the timestamp (`extra` is empty). -/
theorem c2_roundtrip (c : AvatarConfig) (ts : String)
    (h1 : c.headShape ∈ headShapeDomain) (h2 : c.hairStyle ∈ hairStyleDomain)
    (h3 : c.eyeStyle ∈ eyeStyleDomain) (h4 : c.eyebrowStyle ∈ eyebrowStyleDomain)
    (h5 : c.noseStyle ∈ noseStyleDomain) (h6 : c.mouthStyle ∈ mouthStyleDomain)
    (h7 : c.headColor ≠ "") (h8 : c.hairColor ≠ "") (h9 : c.eyeColor ≠ "") :
    fromRecord (toRecord c ts) = c ∧ (toRecord c ts).extra = [] := by
  have d1 : ∀ s ∈ headShapeDomain, s ≠ "" := by decide
  have d2 : ∀ s ∈ hairStyleDomain, s ≠ "" := by decide
  have d3 : ∀ s ∈ eyeStyleDomain, s ≠ "" := by decide
  have d4 : ∀ s ∈ eyebrowStyleDomain, s ≠ "" := by decide
  have d5 : ∀ s ∈ noseStyleDomain, s ≠ "" := by decide
  have d6 : ∀ s ∈ mouthStyleDomain, s ≠ "" := by decide
  refine ⟨?_, rfl⟩
  simp [fromRecord, toRecord, orDefault, d1 _ h1, d2 _ h2, d3 _ h3, d4 _ h4, d5 _ h5,
    d6 _ h6, h7, h8, h9]

/-- C2, witness: the round trip at the default configuration. -/
theorem c2_roundtrip_witness :
    fromRecord (toRecord defaultConfig "2024-01-01T00:00:00.000Z") = defaultConfig ∧
    (toRecord defaultConfig "2024-01-01T00:00:00.000Z").extra = [] :=
  c2_roundtrip defaultConfig "2024-01-01T00:00:00.000Z" (by decide) (by decide) (by decide)
    (by decide) (by decide) (by decide) (by decide) (by decide) (by decide)

/-- C3, counterexample.  The claim says every decoded field lies in its
domain and an unrecognized supplied value resolves to the default.  But
`record.headShape || 'round'` keeps any non-empty string: a persisted
`headShape` of `"banana"` survives the decode verbatim and lies outside the
taxonomy. -/
theorem c3_counterexample :
    (fromRecord { emptyRecord with headShape := some "banana" }).headShape = "banana" ∧
    "banana" ∉ headShapeDomain := by
  exact ⟨rfl, by decide⟩

/-- C3, amended.  The load-side default-filling defaults each missing field
to its taxonomy default (so a wholly empty record decodes to the default
configuration) and ignores foreign fields; but a present, non-empty,
unrecognized string value is kept verbatim (exemplified on `headShape`), so
such a value is not resolved to the default and can leave the decoded field
outside its domain. -/
theorem c3_amended_default_fill (r : AvatarRecord) :
    (r.headShape = none → (fromRecord r).headShape = "round") ∧
    (r.headColor = none → (fromRecord r).headColor = "#ffccaa") ∧
    (r.hairStyle = none → (fromRecord r).hairStyle = "short") ∧
    (r.hairColor = none → (fromRecord r).hairColor = "#4a3728") ∧
    (r.eyeStyle = none → (fromRecord r).eyeStyle = "dots") ∧
    (r.eyeColor = none → (fromRecord r).eyeColor = "#333333") ∧
    (r.eyebrowStyle = none → (fromRecord r).eyebrowStyle = "normal") ∧
    (r.noseStyle = none → (fromRecord r).noseStyle = "small") ∧
    (r.mouthStyle = none → (fromRecord r).mouthStyle = "smile") ∧
    (r.hasBlush = none → (fromRecord r).hasBlush = true) ∧
    (∀ e : List (String × String), fromRecord { r with extra := e } = fromRecord r) ∧
    (∀ s : String, s ≠ "" → r.headShape = some s → (fromRecord r).headShape = s) ∧
    fromRecord emptyRecord = defaultConfig := by
  refine ⟨?_, ?_, ?_, ?_, ?_, ?_, ?_, ?_, ?_, ?_, ?_, ?_, by decide⟩
  · intro h; simp [fromRecord, orDefault, h]
  · intro h; simp [fromRecord, orDefault, h]
  · intro h; simp [fromRecord, orDefault, h]
  · intro h; simp [fromRecord, orDefault, h]
  · intro h; simp [fromRecord, orDefault, h]
  · intro h; simp [fromRecord, orDefault, h]
  · intro h; simp [fromRecord, orDefault, h]
  · intro h; simp [fromRecord, orDefault, h]
  · intro h; simp [fromRecord, orDefault, h]
  · intro h; simp [fromRecord, h]
  · intro e; rfl
  · intro s hs hr; simp [fromRecord, orDefault, hr, hs]

/-- C3, witness: default-filling at the wholly empty record, foreign-field
invisibility, and verbatim pass-through of a present legal value. -/
theorem c3_amended_default_fill_witness :
    (fromRecord emptyRecord).headShape = "round" ∧
    fromRecord { emptyRecord with extra := [("foreignField", "x")] } = fromRecord emptyRecord ∧
    (fromRecord { emptyRecord with headShape := some "oval" }).headShape = "oval" := by
  obtain ⟨hA, -, -, -, -, -, -, -, -, -, hB, -, -⟩ := c3_amended_default_fill emptyRecord
  obtain ⟨-, -, -, -, -, -, -, -, -, -, -, hC, -⟩ :=
    c3_amended_default_fill { emptyRecord with headShape := some "oval" }
  exact ⟨hA rfl, hB [("foreignField", "x")], hC "oval" (by decide) rfl⟩

/-- C4: the assembler is idempotent.  Rebuilding from the same configuration
over an already-built child list first clears every existing child, so the
result equals a single build: no accumulation across repeated calls. -/
theorem c4_buildAvatar_idempotent (c : AvatarConfig) (prev : List AvatarPart) :
    buildAvatar c (buildAvatar c prev) = buildAvatar c prev := by
  simp [buildAvatar, clearChildren_eq_nil]

/-- C6, counterexample.  The claim says the create-style write happens only
when the update target does not exist.  But the fallback is a bare `catch`:
here the put fails with a network timeout (not a missing record) and the
save still issues `createRecord`. -/
theorem c6_counterexample :
    PutOutcome.otherFailure "network timeout" ≠ PutOutcome.notFound ∧
    WriteAction.create "xyz.bskatar.avatar" "self" (toRecord defaultConfig "T")
      ∈ saveAvatarWrites defaultConfig "T" "T" (.otherFailure "network timeout") := by
  exact ⟨by decide, by decide⟩

/-- C6, amended.  Save always attempts the update-style `putRecord` against
the single fixed slot first (it is the first write in every run); when the
put succeeds nothing else is written; when it fails for any reason — not
only a missing record — the create-style write follows, carrying the full
encoded record, identical to the put payload apart from its independently
sampled `createdAt` timestamp. -/
theorem c6_amended_save (cfg : AvatarConfig) (t1 t2 : String) (o : PutOutcome) :
    saveAvatarWrites cfg t1 t2 .ok
      = [WriteAction.put "xyz.bskatar.avatar" "self" (toRecord cfg t1)] ∧
    (saveAvatarWrites cfg t1 t2 o).head?
      = some (WriteAction.put "xyz.bskatar.avatar" "self" (toRecord cfg t1)) ∧
    (o ≠ .ok → saveAvatarWrites cfg t1 t2 o
      = [WriteAction.put "xyz.bskatar.avatar" "self" (toRecord cfg t1),
         WriteAction.create "xyz.bskatar.avatar" "self" (toRecord cfg t2)]) := by
  refine ⟨rfl, ?_, ?_⟩
  · cases o <;> rfl
  · intro h
    cases o with
    | ok => exact absurd rfl h
    | notFound => rfl
    | otherFailure m => rfl

/-- C6, witness: the amended save behaviour at a concrete not-found put
outcome and shared timestamp. -/
theorem c6_amended_save_witness :
    saveAvatarWrites defaultConfig "T" "T" .ok
      = [WriteAction.put "xyz.bskatar.avatar" "self" (toRecord defaultConfig "T")] ∧
    saveAvatarWrites defaultConfig "T" "T" .notFound
      = [WriteAction.put "xyz.bskatar.avatar" "self" (toRecord defaultConfig "T"),
         WriteAction.create "xyz.bskatar.avatar" "self" (toRecord defaultConfig "T")] := by
  obtain ⟨hOk, -, hFall⟩ := c6_amended_save defaultConfig "T" "T" .notFound
  exact ⟨hOk, hFall (by decide)⟩

/-- C7: the three load outcomes.  A successful `getRecord` decodes the
record, replaces the live configuration and rebuilds the avatar; an error
matching the not-found classifier (message containing `'not found'` or
status 400) yields the distinct informational result, which the load-button
handler does not report as an error; any other error surfaces its message
(with the `'Load failed'` fallback for an empty one), which the handler
reports; and every unsuccessful outcome leaves the live configuration and
the avatar child list untouched. -/
theorem c7_load_trichotomy (s : AppState) :
    (∀ rec, loadAvatar (.ok rec) s
      = (⟨fromRecord rec, buildAvatar (fromRecord rec) s.avatar⟩, ⟨true, none⟩)) ∧
    (∀ msg st, (strContains msg "not found" || st == 400) = true →
      loadAvatar (.err msg st) s = (s, ⟨false, some "No avatar saved yet"⟩)) ∧
    loadShowsError ⟨false, some "No avatar saved yet"⟩ = false ∧
    (∀ msg st, (strContains msg "not found" || st == 400) = false →
      loadAvatar (.err msg st) s
        = (s, ⟨false, some (if msg = "" then "Load failed" else msg)⟩)) ∧
    (∀ msg, msg ≠ "No avatar saved yet" → loadShowsError ⟨false, some msg⟩ = true) ∧
    (∀ o, (loadAvatar o s).2.success = false → (loadAvatar o s).1 = s) := by
  refine ⟨fun rec => rfl, ?_, rfl, ?_, ?_, ?_⟩
  · intro msg st h
    simp [loadAvatar, h]
  · intro msg st h
    simp [loadAvatar, h]
  · intro msg h
    simp [loadShowsError, h]
  · intro o h
    cases o with
    | ok rec => simp [loadAvatar] at h
    | err msg st =>
        simp only [loadAvatar]
        split <;> rfl

/-- C7, witness: the three outcomes at concrete inputs — a record applied,
the real not-found shape (status 400) answered informationally, and a
network failure surfaced and shown as an error, both failures leaving the
state unchanged. -/
theorem c7_load_trichotomy_witness :
    loadAvatar (.ok emptyRecord) ⟨defaultConfig, []⟩
      = (⟨fromRecord emptyRecord, buildAvatar (fromRecord emptyRecord) []⟩, ⟨true, none⟩) ∧
    loadAvatar (.err "Could not locate record" 400) ⟨defaultConfig, []⟩
      = (⟨defaultConfig, []⟩, ⟨false, some "No avatar saved yet"⟩) ∧
    loadShowsError ⟨false, some "No avatar saved yet"⟩ = false ∧
    loadAvatar (.err "network error" 500) ⟨defaultConfig, []⟩
      = (⟨defaultConfig, []⟩, ⟨false, some "network error"⟩) ∧
    loadShowsError ⟨false, some "network error"⟩ = true := by
  obtain ⟨h1, h2, h3, h4, h5, -⟩ := c7_load_trichotomy ⟨defaultConfig, []⟩
  refine ⟨h1 emptyRecord, h2 "Could not locate record" 400 (by decide), h3, ?_,
    h5 "network error" (by decide)⟩
  have h := h4 "network error" 500 (by decide)
  simpa using h

/-- C8, counterexample.  The claim says an empty sub-assembly is not
attached as a child.  With `hairStyle = 'none'` the hair generator yields
the empty group, and `buildAvatar` still adds it: the empty group is among
the avatar root's children. -/
theorem c8_counterexample :
    AvatarPart.groupPart [] ∈ buildAvatar { defaultConfig with hairStyle := "none" } [] := by
  decide

/-- C8, amended.  The assembler detaches every existing child (the previous
child list does not influence the result), invokes the generators in the
fixed order head, hair, nose, eyes, eyebrows, mouth, then conditionally
blush, and attaches every resulting sub-assembly as a child in that order —
including empty ones; only the blush group's attachment is conditional (on
`hasBlush`), so the root always has seven children with blush and six
without. -/
theorem c8_amended_assembly (c : AvatarConfig) (prev : List AvatarPart) :
    buildAvatar c prev
      = [AvatarPart.meshPart (createHead c.headShape c.headColor),
         AvatarPart.groupPart (createHair c.hairStyle c.hairColor),
         AvatarPart.groupPart (createNose c.noseStyle c.headColor),
         AvatarPart.groupPart (createEyes c.eyeStyle c.eyeColor),
         AvatarPart.groupPart (createEyebrows c.eyebrowStyle c.hairColor),
         AvatarPart.groupPart (createMouth c.mouthStyle)] ++
        (if c.hasBlush then [AvatarPart.groupPart createBlush] else []) ∧
    (buildAvatar c prev).length = if c.hasBlush then 7 else 6 := by
  constructor
  · simp [buildAvatar, clearChildren_eq_nil]
  · simp only [buildAvatar, clearChildren_eq_nil, List.nil_append]
    cases c.hasBlush <;> rfl

/-- C10: falsy values on load.  The boolean field is defaulted by nullish
coalescing, so a persisted `hasBlush: false` is preserved (any present
boolean is); the string fields are defaulted by truthiness, so a present
empty string is replaced by the field's default — present false-like values
behave differently between the boolean field and the string fields. -/
theorem c10_falsy_handling (r : AvatarRecord) (b : Bool) :
    (r.hasBlush = some b → (fromRecord r).hasBlush = b) ∧
    (r.hasBlush = some false → (fromRecord r).hasBlush = false) ∧
    (r.hasBlush = none → (fromRecord r).hasBlush = true) ∧
    (r.headShape = some "" → (fromRecord r).headShape = "round") ∧
    (r.headColor = some "" → (fromRecord r).headColor = "#ffccaa") ∧
    (r.hairStyle = some "" → (fromRecord r).hairStyle = "short") ∧
    (r.hairColor = some "" → (fromRecord r).hairColor = "#4a3728") ∧
    (r.eyeStyle = some "" → (fromRecord r).eyeStyle = "dots") ∧
    (r.eyeColor = some "" → (fromRecord r).eyeColor = "#333333") ∧
    (r.eyebrowStyle = some "" → (fromRecord r).eyebrowStyle = "normal") ∧
    (r.noseStyle = some "" → (fromRecord r).noseStyle = "small") ∧
    (r.mouthStyle = some "" → (fromRecord r).mouthStyle = "smile") := by
  refine ⟨?_, ?_, ?_, ?_, ?_, ?_, ?_, ?_, ?_, ?_, ?_, ?_⟩ <;> intro h <;>
    simp [fromRecord, orDefault, h]

/-- C10, witness: a record persisted with `hasBlush: false` and an empty
`headShape` decodes to blush off and the default head shape. -/
theorem c10_falsy_handling_witness :
    (fromRecord { emptyRecord with hasBlush := some false, headShape := some "" }).hasBlush
      = false ∧
    (fromRecord { emptyRecord with hasBlush := some false, headShape := some "" }).headShape
      = "round" := by
  obtain ⟨-, hF, -, hS, -⟩ :=
    c10_falsy_handling { emptyRecord with hasBlush := some false, headShape := some "" } false
  exact ⟨hF rfl, hS rfl⟩

/-- The world front end's body capsule geometry; no editor generator ever
produces it. -/
def bodyCapsule : GeomBase := GeomBase.capsule 0.4 0.8 4 8

/-- The head mesh never carries the body capsule geometry. -/
lemma createHead_no_body (s col : String) : (createHead s col).geom.base ≠ bodyCapsule := by
  unfold createHead
  split <;> first | exact fun h => GeomBase.noConfusion h | (intro h; injection h with h1 h2 h3 h4; exact absurd h1 (by norm_num))

/-- No hair mesh carries the body capsule geometry. -/
lemma createHair_no_body (s col : String) :
    ∀ m ∈ createHair s col, m.geom.base ≠ bodyCapsule := by
  unfold createHair
  split
  · intro m hm; cases hm
  · split <;> intro m hm
    · fin_cases hm <;> first | exact fun h => GeomBase.noConfusion h | (intro h; injection h with h1 h2 h3 h4; exact absurd h1 (by norm_num))
    · simp only [List.map] at hm
      fin_cases hm <;> first | exact fun h => GeomBase.noConfusion h | (intro h; injection h with h1 h2 h3 h4; exact absurd h1 (by norm_num))
    · fin_cases hm <;> first | exact fun h => GeomBase.noConfusion h | (intro h; injection h with h1 h2 h3 h4; exact absurd h1 (by norm_num))
    · fin_cases hm <;> first | exact fun h => GeomBase.noConfusion h | (intro h; injection h with h1 h2 h3 h4; exact absurd h1 (by norm_num))
    · cases hm

/-- No eyebrow mesh carries the body capsule geometry. -/
lemma createEyebrows_no_body (s col : String) :
    ∀ m ∈ createEyebrows s col, m.geom.base ≠ bodyCapsule := by
  unfold createEyebrows
  split
  · intro m hm; cases hm
  · split <;> intro m hm
    · fin_cases hm <;> first | exact fun h => GeomBase.noConfusion h | (intro h; injection h with h1 h2 h3 h4; exact absurd h1 (by norm_num))
    · fin_cases hm <;> first | exact fun h => GeomBase.noConfusion h | (intro h; injection h with h1 h2 h3 h4; exact absurd h1 (by norm_num))
    · fin_cases hm <;> first | exact fun h => GeomBase.noConfusion h | (intro h; injection h with h1 h2 h3 h4; exact absurd h1 (by norm_num))
    · fin_cases hm <;> first | exact fun h => GeomBase.noConfusion h | (intro h; injection h with h1 h2 h3 h4; exact absurd h1 (by norm_num))
    · cases hm

/-- No nose mesh carries the body capsule geometry. -/
lemma createNose_no_body (s col : String) :
    ∀ m ∈ createNose s col, m.geom.base ≠ bodyCapsule := by
  unfold createNose
  split
  · intro m hm; cases hm
  · split <;> intro m hm
    · fin_cases hm <;> first | exact fun h => GeomBase.noConfusion h | (intro h; injection h with h1 h2 h3 h4; exact absurd h1 (by norm_num))
    · fin_cases hm <;> first | exact fun h => GeomBase.noConfusion h | (intro h; injection h with h1 h2 h3 h4; exact absurd h1 (by norm_num))
    · fin_cases hm <;> first | exact fun h => GeomBase.noConfusion h | (intro h; injection h with h1 h2 h3 h4; exact absurd h1 (by norm_num))
    · cases hm

/-- No eye mesh carries the body capsule geometry. -/
lemma createEyes_no_body (s col : String) :
    ∀ m ∈ createEyes s col, m.geom.base ≠ bodyCapsule := by
  unfold createEyes
  split <;> intro m hm
  · fin_cases hm <;> first | exact fun h => GeomBase.noConfusion h | (intro h; injection h with h1 h2 h3 h4; exact absurd h1 (by norm_num))
  · fin_cases hm <;> first | exact fun h => GeomBase.noConfusion h | (intro h; injection h with h1 h2 h3 h4; exact absurd h1 (by norm_num))
  · fin_cases hm <;> first | exact fun h => GeomBase.noConfusion h | (intro h; injection h with h1 h2 h3 h4; exact absurd h1 (by norm_num))
  · fin_cases hm <;> first | exact fun h => GeomBase.noConfusion h | (intro h; injection h with h1 h2 h3 h4; exact absurd h1 (by norm_num))
  · cases hm

/-- No mouth mesh carries the body capsule geometry. -/
lemma createMouth_no_body (s : String) :
    ∀ m ∈ createMouth s, m.geom.base ≠ bodyCapsule := by
  unfold createMouth
  split <;> intro m hm
  · fin_cases hm <;> first | exact fun h => GeomBase.noConfusion h | (intro h; injection h with h1 h2 h3 h4; exact absurd h1 (by norm_num))
  · fin_cases hm <;> first | exact fun h => GeomBase.noConfusion h | (intro h; injection h with h1 h2 h3 h4; exact absurd h1 (by norm_num))
  · fin_cases hm <;> first | exact fun h => GeomBase.noConfusion h | (intro h; injection h with h1 h2 h3 h4; exact absurd h1 (by norm_num))
  · fin_cases hm <;> first | exact fun h => GeomBase.noConfusion h | (intro h; injection h with h1 h2 h3 h4; exact absurd h1 (by norm_num))
  · fin_cases hm <;> first | exact fun h => GeomBase.noConfusion h | (intro h; injection h with h1 h2 h3 h4; exact absurd h1 (by norm_num))
  · cases hm

/-- No blush mesh carries the body capsule geometry. -/
lemma createBlush_no_body : ∀ m ∈ createBlush, m.geom.base ≠ bodyCapsule := by
  intro m hm
  fin_cases hm <;> first | exact fun h => GeomBase.noConfusion h | (intro h; injection h with h1 h2 h3 h4; exact absurd h1 (by norm_num))

/-- No mesh of the editor-assembled avatar carries the body capsule
geometry. -/
lemma editor_no_body (c : AvatarConfig) :
    ∀ m ∈ flattenParts (buildAvatar c []), m.geom.base ≠ bodyCapsule := by
  intro m hm
  have hflat : flattenParts (buildAvatar c [])
      = [createHead c.headShape c.headColor] ++ createHair c.hairStyle c.hairColor ++
        createNose c.noseStyle c.headColor ++ createEyes c.eyeStyle c.eyeColor ++
        createEyebrows c.eyebrowStyle c.hairColor ++ createMouth c.mouthStyle ++
        (if c.hasBlush then createBlush else []) := by
    cases hb : c.hasBlush <;> simp [buildAvatar, clearChildren_eq_nil, flattenParts, hb]
  rw [hflat] at hm
  simp only [List.mem_append, List.mem_singleton] at hm
  rcases hm with (((((h | h) | h) | h) | h) | h) | h
  · exact h ▸ createHead_no_body c.headShape c.headColor
  · exact createHair_no_body c.hairStyle c.hairColor m h
  · exact createNose_no_body c.noseStyle c.headColor m h
  · exact createEyes_no_body c.eyeStyle c.eyeColor m h
  · exact createEyebrows_no_body c.eyebrowStyle c.hairColor m h
  · exact createMouth_no_body c.mouthStyle m h
  · rcases Bool.eq_false_or_eq_true c.hasBlush with hb | hb
    · rw [hb, if_pos rfl] at h
      exact createBlush_no_body m h
    · rw [hb, if_neg (by simp)] at h
      cases h

/-- The world-built avatar always holds the body capsule as its second
child. -/
lemma world_body_mem (c : AvatarConfig) :
    mAt ⟨bodyCapsule, []⟩ (createMaterialW (.hex c.headColor)) ⟨0, -1.4, 0⟩
      ∈ (buildPlayerAvatar c).children := by
  show _ ∈ _ :: _ :: _
  exact List.mem_cons_of_mem _ (List.mem_cons_self _ _)

/-- C9, counterexample.  At the default configuration the editor's assembly
flattens to eleven meshes (head, two hair, one nose, two eyes, two eyebrows,
one mouth, two blush) while the world front end's avatar group holds seven
(head, body, one hair cap, two eyes, two blush): the hierarchies are not
structurally identical. -/
theorem c9_counterexample :
    flattenParts (buildAvatar defaultConfig []) ≠ (buildPlayerAvatar defaultConfig).children :=
  fun h => absurd (congrArg List.length h) (by decide)

/-- C9, amended.  The two front ends do not share the generative mapping:
for every configuration the world front end's avatar group differs
structurally from the editor's assembly — it always inserts a body capsule
(which no editor generator produces), besides omitting nose, eyebrows,
mouth and the square-head inflation and simplifying hair and eyes. -/
theorem c9_editor_world_divergence (c : AvatarConfig) (prev : List AvatarPart) :
    flattenParts (buildAvatar c prev) ≠ (buildPlayerAvatar c).children := by
  have hprev : buildAvatar c prev = buildAvatar c [] := by
    simp [buildAvatar, clearChildren_eq_nil]
  rw [hprev]
  intro h
  have hmem := world_body_mem c
  rw [← h] at hmem
  exact editor_no_body c _ hmem rfl

/-- Positivity of the squared distance transfers to the real sum of
squares. -/
lemma sumSq_castR (v : ℚ × ℚ × ℚ) :
    ((sumSq v : ℚ) : ℝ)
      = (v.1 : ℝ) * (v.1 : ℝ) + (v.2.1 : ℝ) * (v.2.1 : ℝ) + (v.2.2 : ℝ) * (v.2.2 : ℝ) := by
  unfold sumSq
  push_cast
  ring

/-- The inflation distance law, over the rational grid. -/
lemma norm3_inflate_toR (v : ℚ × ℚ × ℚ) (h : 0 < sumSq v) :
    norm3 (inflateVertex (toR v)) = 0.85 * norm3 (toR v) + 0.15 := by
  have hR : (0 : ℝ) < (v.1 : ℝ) * (v.1 : ℝ) + (v.2.1 : ℝ) * (v.2.1 : ℝ)
      + (v.2.2 : ℝ) * (v.2.2 : ℝ) := by
    rw [← sumSq_castR]
    exact_mod_cast h
  exact norm3_inflate _ _ _ hR

/-- A grid vertex farther than 1 from the origin. -/
lemma one_lt_norm3_toR (v : ℚ × ℚ × ℚ) (h : 1 < sumSq v) : 1 < norm3 (toR v) := by
  rw [norm3_toR]
  refine (Real.lt_sqrt (by norm_num)).mpr ?_
  rw [one_pow]
  exact_mod_cast h

/-- A grid vertex nearer than 1 to the origin. -/
lemma norm3_toR_lt_one (v : ℚ × ℚ × ℚ) (h : sumSq v < 1) : norm3 (toR v) < 1 := by
  rw [norm3_toR]
  refine (Real.sqrt_lt' one_pos).mpr ?_
  rw [one_pow]
  exact_mod_cast h

/-- Vertices beyond the unit sphere move strictly inward. -/
lemma decrease_of_big (v : ℚ × ℚ × ℚ) (h : 1 < sumSq v) :
    norm3 (inflateVertex (toR v)) < norm3 (toR v) := by
  rw [norm3_inflate_toR v (lt_trans zero_lt_one h)]
  have h1 := one_lt_norm3_toR v h
  linarith

/-- Vertices inside the unit sphere move strictly outward. -/
lemma increase_of_small (v : ℚ × ℚ × ℚ) (h0 : 0 < sumSq v) (h : sumSq v < 1) :
    norm3 (toR v) < norm3 (inflateVertex (toR v)) := by
  rw [norm3_inflate_toR v h0]
  have h1 := norm3_toR_lt_one v h
  have h2 : 0 < norm3 (toR v) := by
    rw [norm3_toR]
    exact Real.sqrt_pos.mpr (by exact_mod_cast h0)
  linarith

/-- The displacement law over the rational grid. -/
lemma disp3_toR (v : ℚ × ℚ × ℚ) (h0 : 0 < sumSq v) :
    disp3 (toR v) = 0.15 * |1 - norm3 (toR v)| := by
  have hR : (0 : ℝ) < (v.1 : ℝ) * (v.1 : ℝ) + (v.2.1 : ℝ) * (v.2.1 : ℝ)
      + (v.2.2 : ℝ) * (v.2.2 : ℝ) := by
    rw [← sumSq_castR]
    exact_mod_cast h0
  exact disp3_eq _ _ _ hR

/-- Every corner is displaced by exactly `0.15 · (√2.0125 − 1)`. -/
lemma disp_corner (v : ℚ × ℚ × ℚ) (hv : v ∈ boxCorners) :
    disp3 (toR v) = 0.15 * (Real.sqrt 2.0125 - 1) := by
  have hs : ((sumSq v : ℚ) : ℝ) = 2.0125 := by
    fin_cases hv <;> norm_num [sumSq]
  have h0 : 0 < sumSq v := by
    have : (0 : ℝ) < ((sumSq v : ℚ) : ℝ) := by rw [hs]; norm_num
    exact_mod_cast this
  have h1 : (1 : ℝ) ≤ Real.sqrt 2.0125 := Real.le_sqrt_of_sq_le (by norm_num)
  rw [disp3_toR v h0, norm3_toR, hs, abs_of_nonpos (by linarith), neg_sub]

/-- Every face center is displaced by at most 0.0375. -/
lemma disp_face (w : ℚ × ℚ × ℚ) (hw : w ∈ boxFaceCenters) : disp3 (toR w) ≤ 0.0375 := by
  fin_cases hw
  · rw [disp3_toR _ (by norm_num [sumSq]), norm3_toR,
      show ((sumSq ((-0.8 : ℚ), (0 : ℚ), (0 : ℚ)) : ℚ) : ℝ) = 0.8 ^ 2 by norm_num [sumSq],
      Real.sqrt_sq (by norm_num), abs_of_nonneg (by norm_num)]
    norm_num
  · rw [disp3_toR _ (by norm_num [sumSq]), norm3_toR,
      show ((sumSq ((0.8 : ℚ), (0 : ℚ), (0 : ℚ)) : ℚ) : ℝ) = 0.8 ^ 2 by norm_num [sumSq],
      Real.sqrt_sq (by norm_num), abs_of_nonneg (by norm_num)]
    norm_num
  · rw [disp3_toR _ (by norm_num [sumSq]), norm3_toR,
      show ((sumSq ((0 : ℚ), (-0.9 : ℚ), (0 : ℚ)) : ℚ) : ℝ) = 0.9 ^ 2 by norm_num [sumSq],
      Real.sqrt_sq (by norm_num), abs_of_nonneg (by norm_num)]
    norm_num
  · rw [disp3_toR _ (by norm_num [sumSq]), norm3_toR,
      show ((sumSq ((0 : ℚ), (0.9 : ℚ), (0 : ℚ)) : ℚ) : ℝ) = 0.9 ^ 2 by norm_num [sumSq],
      Real.sqrt_sq (by norm_num), abs_of_nonneg (by norm_num)]
    norm_num
  · rw [disp3_toR _ (by norm_num [sumSq]), norm3_toR,
      show ((sumSq ((0 : ℚ), (0 : ℚ), (-0.75 : ℚ)) : ℚ) : ℝ) = 0.75 ^ 2 by norm_num [sumSq],
      Real.sqrt_sq (by norm_num), abs_of_nonneg (by norm_num)]
    norm_num
  · rw [disp3_toR _ (by norm_num [sumSq]), norm3_toR,
      show ((sumSq ((0 : ℚ), (0 : ℚ), (0.75 : ℚ)) : ℚ) : ℝ) = 0.75 ^ 2 by norm_num [sumSq],
      Real.sqrt_sq (by norm_num), abs_of_nonneg (by norm_num)]
    norm_num

/-- The corner displacement strictly exceeds every face-center
displacement bound. -/
lemma face_lt_corner_disp : (0.0375 : ℝ) < 0.15 * (Real.sqrt 2.0125 - 1) := by
  have h : (1.25 : ℝ) < Real.sqrt 2.0125 := (Real.lt_sqrt (by norm_num)).mpr (by norm_num)
  linarith

/-- C5, counterexample.  The claim says every head vertex of the square head
moves strictly closer to the origin under the 0.15 inflation.  The face
center `(0.8, 0, 0)` is at distance 0.8 < 1, and the inflation moves every
vertex 15% of the way toward the unit sphere, so this vertex moves strictly
farther away (to distance 0.83). -/
theorem c5_counterexample :
    ((0.8 : ℚ), (0 : ℚ), (0 : ℚ)) ∈ boxVertices ∧
    ¬ norm3 (inflateVertex (toR ((0.8 : ℚ), (0 : ℚ), (0 : ℚ))))
        < norm3 (toR ((0.8 : ℚ), (0 : ℚ), (0 : ℚ))) := by
  constructor
  · simp [boxVertices]
  · have h := increase_of_small ((0.8 : ℚ), (0 : ℚ), (0 : ℚ)) (by norm_num [sumSq])
      (by norm_num [sumSq])
    linarith

/-- C5, amended.  The inflation moves every box vertex 15% of the way toward
the unit sphere along its own direction (new distance = 0.85·old + 0.15), so
distance from the origin strictly decreases exactly for the vertices farther
than 1 from the origin: all eight corners and all twelve edge midpoints
shrink inward, while the six face centers (distances 0.8, 0.9, 0.75 < 1)
move strictly outward; and every corner is displaced strictly more than any
face center. -/
theorem c5_amended_inflation :
    (∀ v ∈ boxVertices, norm3 (inflateVertex (toR v)) = 0.85 * norm3 (toR v) + 0.15) ∧
    (∀ v ∈ boxVertices, v ∈ boxCorners ∨ v ∈ boxEdgeMids ∨ v ∈ boxFaceCenters) ∧
    (∀ v ∈ boxCorners, norm3 (inflateVertex (toR v)) < norm3 (toR v)) ∧
    (∀ v ∈ boxEdgeMids, norm3 (inflateVertex (toR v)) < norm3 (toR v)) ∧
    (∀ v ∈ boxFaceCenters, norm3 (toR v) < norm3 (inflateVertex (toR v))) ∧
    (∀ v ∈ boxCorners, ∀ w ∈ boxFaceCenters, disp3 (toR w) < disp3 (toR v)) := by
  refine ⟨?_, ?_, ?_, ?_, ?_, ?_⟩
  · intro v hv
    fin_cases hv <;> exact norm3_inflate_toR _ (by norm_num [sumSq])
  · intro v hv
    fin_cases hv <;> simp [boxCorners, boxEdgeMids, boxFaceCenters]
  · intro v hv
    fin_cases hv <;> exact decrease_of_big _ (by norm_num [sumSq])
  · intro v hv
    fin_cases hv <;> exact decrease_of_big _ (by norm_num [sumSq])
  · intro v hv
    fin_cases hv <;> exact increase_of_small _ (by norm_num [sumSq]) (by norm_num [sumSq])
  · intro v hv w hw
    calc disp3 (toR w) ≤ 0.0375 := disp_face w hw
      _ < 0.15 * (Real.sqrt 2.0125 - 1) := face_lt_corner_disp
      _ = disp3 (toR v) := (disp_corner v hv).symm

/-- C5, witness: the amended behaviour at the concrete corner
`(0.8, 0.9, 0.75)` (distance √2.0125 > 1, moves inward) and the concrete
face center `(0.8, 0, 0)` (distance 0.8 < 1, moves outward, displaced less
than the corner). -/
theorem c5_amended_inflation_witness :
    norm3 (inflateVertex (toR ((0.8 : ℚ), (0.9 : ℚ), (0.75 : ℚ))))
      < norm3 (toR ((0.8 : ℚ), (0.9 : ℚ), (0.75 : ℚ))) ∧
    norm3 (toR ((0.8 : ℚ), (0 : ℚ), (0 : ℚ)))
      < norm3 (inflateVertex (toR ((0.8 : ℚ), (0 : ℚ), (0 : ℚ)))) ∧
    disp3 (toR ((0.8 : ℚ), (0 : ℚ), (0 : ℚ)))
      < disp3 (toR ((0.8 : ℚ), (0.9 : ℚ), (0.75 : ℚ))) := by
  obtain ⟨-, -, hc, -, hf, hd⟩ := c5_amended_inflation
  exact ⟨hc _ (by simp [boxCorners]), hf _ (by simp [boxFaceCenters]),
    hd _ (by simp [boxCorners]) _ (by simp [boxFaceCenters])⟩

end Bskatar
